import Mathlib

/-!
Verification of the spam-checker MCP worker (`src/src/worker.js`).

JavaScript strings are modelled as `List Char` (one element per UTF-16 code
unit; every string handled by this program is ASCII).  JavaScript 32-bit
integer coercion (`x | 0`, `x & x`, `<<`) is modelled by `toInt32` on `Int`.
Outbound I/O is modelled by passing the upstream HTTP response explicitly and
counting the network calls the code would perform; clock reads (`Date.now()`,
`new Date().toISOString()`) are passed as explicit parameters.
-/

set_option maxRecDepth 8000

namespace SpamChecker

/-- JavaScript `ToInt32`: reduce an integer mod 2^32 into `[-2^31, 2^31)`. -/
def toInt32 (x : Int) : Int :=
  (x + 2147483648) % 4294967296 - 2147483648

/-- One loop iteration of `createDocumentId`'s hash
(`hash = ((hash << 5) - hash) + char; hash = hash & hash;`):
`hash << 5` coerces to Int32, shifts, and truncates to Int32; the subtraction
and addition are exact number arithmetic; `hash & hash` coerces to Int32. -/
def jsHashStep (h : Int) (c : Nat) : Int :=
  toInt32 (toInt32 (toInt32 h * 32) - h + (c : Int))

/-- The hash accumulated by `createDocumentId` over the char codes. -/
def jsHash (cs : List Nat) : Int :=
  cs.foldl jsHashStep 0

/-- Modelled from the spec: reference hash step `hash = (hash*31 + charCode)`
with sign-preserving 32-bit wraparound. -/
def refHashStep (h : Int) (c : Nat) : Int :=
  toInt32 (h * 31 + (c : Int))

/-- Modelled from the spec: the reference hash over the char codes. -/
def refHash (cs : List Nat) : Int :=
  cs.foldl refHashStep 0

/-- `Number.prototype.toString(16)` for naturals, rendered via an accumulator;
the first argument is fuel, always called with enough of it. -/
def natToHexAux : Nat → Nat → List Char → List Char
  | 0, _, acc => acc
  | fuel + 1, n, acc =>
    if n < 16 then Nat.digitChar n :: acc
    else natToHexAux fuel (n / 16) (Nat.digitChar (n % 16) :: acc)

/-- `n.toString(16)`: minimal lowercase hexadecimal rendering of `n`. -/
def natToHex (n : Nat) : List Char :=
  natToHexAux (n + 1) n []

/-- `createDocumentId(phone)` from `src/src/worker.js` lines 16-25:
hash the char codes, take `Math.abs`, render `toString(16)`, `slice(0, 8)`,
and prefix with the constant tag. -/
def createDocumentId (phone : List Char) : List Char :=
  "spam_check_".toList ++ (natToHex (Int.natAbs (jsHash (phone.map Char.toNat)))).take 8

/-- `maskPhoneNumber(phone)` from `src/src/worker.js` lines 7-10. -/
def maskPhoneNumber (phone : List Char) : List Char :=
  if phone.length < 4 then List.replicate phone.length '*'
  else List.replicate (phone.length - 4) '*' ++ phone.drop (phone.length - 4)

/-- `number.startsWith('+')`. -/
def startsPlus : List Char → Bool
  | [] => false
  | c :: _ => c == '+'

/-- The regular expression `/^\+\d{10,15}$/`: the whole string is `+`
followed by 10 to 15 ASCII digits. -/
def e164Regex (s : List Char) : Bool :=
  match s with
  | [] => false
  | c :: rest =>
    c == '+' && rest.all Char.isDigit
      && decide (10 ≤ rest.length) && decide (rest.length ≤ 15)

/-- `isE164(number)` from `src/src/worker.js` lines 12-14. -/
def isE164 (number : List Char) : Bool :=
  startsPlus number && e164Regex number

/-! ## Lookup client (`checkSpamScore`) -/

/-- The nested `nomorobo_spamscore.result` object of the upstream JSON. -/
structure NomoroboInner where
  score : Option Int
deriving DecidableEq

/-- The `nomorobo_spamscore` add-on block of the upstream JSON. -/
structure Nomorobo where
  result : Option NomoroboInner
deriving DecidableEq

/-- The `add_ons.results` block of the upstream JSON. -/
structure AddOnResults where
  nomorobo_spamscore : Option Nomorobo
deriving DecidableEq

/-- The `add_ons` block of the upstream JSON. -/
structure AddOns where
  results : Option AddOnResults
deriving DecidableEq

/-- The `carrier` block of the upstream JSON. -/
structure Carrier where
  name : Option (List Char)
deriving DecidableEq

/-- The upstream JSON body: only the fields the worker reads. -/
structure TwilioData where
  add_ons : Option AddOns
  carrier : Option Carrier
  country_code : Option (List Char)
  type : Option (List Char)
deriving DecidableEq

/-- The upstream HTTP response consumed by `checkSpamScore`. -/
structure HttpResponse where
  status : Nat
  body : TwilioData
deriving DecidableEq

/-- `response.ok`: status in the inclusive range 200-299. -/
def respOk (r : HttpResponse) : Bool :=
  decide (200 ≤ r.status) && decide (r.status ≤ 299)

/-- The score extraction chain
`(data.add_ons || {}).results ... .result.score ?? 0` (worker.js lines 58-63);
`|| {}` on objects and the optional chain both read as `Option.bind`, and
`?? 0` as `getD 0`. -/
def twilioScore (d : TwilioData) : Int :=
  ((((d.add_ons.bind (·.results)).bind
      (·.nomorobo_spamscore)).bind (·.result)).bind (·.score)).getD 0

/-- `x || 'Unknown'` on an optionally-present string: JavaScript replaces a
missing value and the falsy empty string by the default. -/
def orUnknown (o : Option (List Char)) : List Char :=
  match o with
  | none => "Unknown".toList
  | some s => if s = [] then "Unknown".toList else s

/-- The failures `checkSpamScore` can throw, with the data each message uses. -/
inductive LookupError
  | invalidFormat (phone : List Char)
  | notFound (phone : List Char)
  | authFailed
  | rateLimited
  | upstreamError (status : Nat)
deriving DecidableEq

/-- The `Error` message text thrown for each failure (worker.js lines 30-53). -/
def LookupError.message : LookupError → List Char
  | .invalidFormat phone => "Invalid phone number format: ".toList ++ phone
  | .notFound phone => "Phone number not found: ".toList ++ phone
  | .authFailed => "Twilio authentication failed".toList
  | .rateLimited => "Twilio rate limit exceeded".toList
  | .upstreamError status => "Twilio API error: ".toList ++ (toString status).toList

/-- The record returned by a successful `checkSpamScore`. -/
structure SpamCheckResult where
  id : List Char
  phone_number_masked : List Char
  spam_score : Int
  reputation : List Char
  carrier : List Char
  country_code : List Char
  phone_type : List Char
  checked_at : List Char
  source : List Char
  confidence : List Char
deriving DecidableEq

instance : DecidableEq (Except LookupError SpamCheckResult) :=
  fun a b =>
    match a, b with
    | .ok x, .ok y =>
      if h : x = y then .isTrue (by rw [h]) else .isFalse (by simp [h])
    | .error x, .error y =>
      if h : x = y then .isTrue (by rw [h]) else .isFalse (by simp [h])
    | .ok _, .error _ => .isFalse (by simp)
    | .error _, .ok _ => .isFalse (by simp)

/-- `checkSpamScore(phoneNumber, env)` from `src/src/worker.js` lines 28-77.
The upstream response is passed explicitly in place of the awaited `fetch`;
the second component counts the outbound network calls the code performs
(0 when validation rejects the number before the `fetch`, otherwise 1);
`checkedAt` stands for `new Date().toISOString()`. -/
def checkSpamScore (phoneNumber : List Char) (resp : HttpResponse)
    (checkedAt : List Char) : Except LookupError SpamCheckResult × Nat :=
  if isE164 phoneNumber = false then
    (.error (.invalidFormat phoneNumber), 0)
  else if resp.status = 404 then
    (.error (.notFound phoneNumber), 1)
  else if resp.status = 401 then
    (.error .authFailed, 1)
  else if resp.status = 429 then
    (.error .rateLimited, 1)
  else if respOk resp = false then
    (.error (.upstreamError resp.status), 1)
  else
    let score := twilioScore resp.body
    (.ok {
      id := createDocumentId phoneNumber
      phone_number_masked := maskPhoneNumber phoneNumber
      spam_score := score
      reputation := if score == 1 then "SPAM".toList else "CLEAN".toList
      carrier := orUnknown (resp.body.carrier.bind (·.name))
      country_code := orUnknown resp.body.country_code
      phone_type := orUnknown resp.body.type
      checked_at := checkedAt
      source := "Twilio Lookup API + Nomorobo".toList
      confidence := if score == 0 || score == 1 then "High".toList else "Low".toList }, 1)

/-! ## Method dispatch (`handleToolCall` and the `/mcp` adapter) -/

/-- A JSON-RPC request/response id: string, number, or `null` (absent). -/
inductive RpcId
  | num (n : Int)
  | str (s : List Char)
  | null
deriving DecidableEq

/-- The `arguments` object of a `tools/call` request: only the fields the
handlers read, each possibly absent. -/
structure ToolArgs where
  query : Option (List Char)
  id : Option (List Char)
deriving DecidableEq

/-- One item of the `results` array built by the `search` handler. -/
structure ResultItem where
  id : List Char
  title : List Char
  text : List Char
  url : List Char
deriving DecidableEq

/-- The text content carried inside a successful tool-call envelope:
either a `JSON.stringify({results})` list or a `JSON.stringify({message})`
document, modelled at the structured level. -/
inductive ContentText
  | results (items : List ResultItem)
  | message (msg : List Char)
deriving DecidableEq

/-- A handler response envelope: `{jsonrpc, id, result}` (success) or
`{jsonrpc, id, error: {code, message}}` (protocol-level error).  The static
`initialize` and `tools/list` result blobs are opaque constructors. -/
inductive McpOut
  | ok (id : RpcId) (payload : ContentText)
  | initResult (id : RpcId)
  | toolsListResult (id : RpcId)
  | err (id : RpcId) (code : Int) (message : List Char)
deriving DecidableEq

/-- Whether an envelope is a success (`result`, not `error`). -/
def McpOut.isSuccess : McpOut → Bool
  | .err _ _ _ => false
  | _ => true

/-- JavaScript whitespace stripped by `String.prototype.trim` (the ASCII
portion; every phone-number query in scope is ASCII). -/
def jsWhitespace (c : Char) : Bool :=
  c == ' ' || c == '\t' || c == '\n' || c == '\x0d' || c == '\x0b' || c == '\x0c'

/-- `query.trim()`. -/
def jsTrim (s : List Char) : List Char :=
  ((s.dropWhile jsWhitespace).reverse.dropWhile jsWhitespace).reverse

/-- The single `search` result item built on a successful lookup
(worker.js lines 158-163). -/
def successItem (r : SpamCheckResult) : ResultItem :=
  { id := r.id
    title := "Spam Check: ".toList ++ r.phone_number_masked
    text := "Phone: ".toList ++ r.phone_number_masked
      ++ ", Score: ".toList ++ (toString r.spam_score).toList
      ++ ", Reputation: ".toList ++ r.reputation
      ++ ", Carrier: ".toList ++ r.carrier
    url := "https://spam-checker.example.com/report/".toList ++ r.id }

/-- The single synthetic error item built when the lookup throws
(worker.js lines 176-181); `now` stands for `Date.now()`. -/
def errorItem (now : Nat) (query : List Char) (e : LookupError) : ResultItem :=
  { id := "error_".toList ++ (toString now).toList
    title := "Error checking ".toList ++ maskPhoneNumber query
    text := "Could not check spam status: ".toList ++ e.message
    url := "https://spam-checker.example.com/error".toList }

/-- `handleToolCall(request, env)` from `src/src/worker.js` lines 136-245.
`rid` is `request.id`; `now` models `Date.now()`; `resp` the upstream
response an outbound lookup would observe; `checkedAt` the clock string. -/
def handleToolCall (rid : RpcId) (name : List Char) (args : ToolArgs)
    (now : Nat) (resp : HttpResponse) (checkedAt : List Char) : McpOut :=
  if name = "search".toList then
    match args.query with
    | none => .ok rid (.results [])
    | some raw =>
      let query := jsTrim raw
      if query = [] then .ok rid (.results [])
      else if startsPlus query && decide (5 < query.length) then
        match (checkSpamScore query resp checkedAt).1 with
        | .ok r => .ok rid (.results [successItem r])
        | .error e => .ok rid (.results [errorItem now query e])
      else .ok rid (.results [])
  else if name = "fetch".toList then
    match args.id with
    | none => .err rid (-32602) "Document ID is required".toList
    | some docId =>
      if docId = [] then .err rid (-32602) "Document ID is required".toList
      else .ok rid (.message
        "Document retrieval requires phone number re-check. Use search instead.".toList)
  else
    .err rid (-32601) ("Unknown tool: ".toList ++ name)

/-- One parsed `/mcp` POST body, or the message of the `SyntaxError` thrown
by `request.json()` when the body is not valid JSON. -/
inductive McpBody
  | parsed (id : RpcId) (method : List Char) (name : List Char) (args : ToolArgs)
  | parseFailure (errMsg : List Char)
deriving DecidableEq

/-- An HTTP reply of the `/mcp` route: status code plus the JSON envelope. -/
structure HttpReply where
  status : Nat
  body : McpOut
deriving DecidableEq

/-- The `/mcp` POST branch of the worker `fetch` handler
(`src/src/worker.js` lines 276-319): dispatch the parsed body through the
method switch and reply 200, or — when `request.json()` throws — reply 500
with the catch-all `-32603` envelope carrying `id: null`. -/
def mcpPost (parsedBody : McpBody) (now : Nat) (resp : HttpResponse)
    (checkedAt : List Char) : HttpReply :=
  match parsedBody with
  | .parseFailure errMsg =>
    ⟨500, .err .null (-32603) ("Internal error: ".toList ++ errMsg)⟩
  | .parsed rid method name args =>
    if method = "initialize".toList then ⟨200, .initResult rid⟩
    else if method = "tools/list".toList then ⟨200, .toolsListResult rid⟩
    else if method = "tools/call".toList then
      ⟨200, handleToolCall rid name args now resp checkedAt⟩
    else ⟨200, .err rid (-32601) ("Unknown method: ".toList ++ method)⟩

/-! ## Supporting lemmas -/

theorem toInt32_emod (x : Int) : toInt32 x % 4294967296 = x % 4294967296 := by
  unfold toInt32; omega

theorem toInt32_congr {a b : Int} (h : a % 4294967296 = b % 4294967296) :
    toInt32 a = toInt32 b := by
  unfold toInt32; omega

theorem toInt32_range (x : Int) :
    -2147483648 ≤ toInt32 x ∧ toInt32 x < 2147483648 := by
  unfold toInt32; omega

/-- The shift-and-subtract hash step coincides with `hash*31 + charCode`
under 32-bit wraparound. -/
theorem jsHashStep_eq_refHashStep (h : Int) (c : Nat) :
    jsHashStep h c = refHashStep h c := by
  unfold jsHashStep refHashStep
  apply toInt32_congr
  have h1 : toInt32 h % 4294967296 = h % 4294967296 := toInt32_emod h
  have h2 : toInt32 (toInt32 h * 32) % 4294967296 = (toInt32 h * 32) % 4294967296 :=
    toInt32_emod _
  omega

theorem jsHash_eq_refHash (cs : List Nat) : jsHash cs = refHash cs := by
  unfold jsHash refHash
  have : ∀ (l : List Nat) (h : Int), l.foldl jsHashStep h = l.foldl refHashStep h := by
    intro l
    induction l with
    | nil => intro h; rfl
    | cons c tl ih =>
      intro h
      simp only [List.foldl_cons, jsHashStep_eq_refHashStep, ih]
  exact this cs 0

theorem jsHash_natAbs_le (cs : List Nat) : (jsHash cs).natAbs ≤ 2147483648 := by
  unfold jsHash
  have key : ∀ (l : List Nat) (h : Int),
      -2147483648 ≤ h ∧ h < 2147483648 →
      -2147483648 ≤ l.foldl jsHashStep h ∧ l.foldl jsHashStep h < 2147483648 := by
    intro l
    induction l with
    | nil => intro h hh; simpa using hh
    | cons c tl ih =>
      intro h _
      simp only [List.foldl_cons]
      exact ih _ (toInt32_range _)
  have := key cs 0 (by omega)
  omega

theorem natToHexAux_eq_digits :
    ∀ (fuel n : Nat) (acc : List Char), n ≠ 0 → n < fuel →
      natToHexAux fuel n acc = ((Nat.digits 16 n).map Nat.digitChar).reverse ++ acc := by
  intro fuel
  induction fuel with
  | zero => intro n acc _ hlt; omega
  | succ f ih =>
    intro n acc hne hlt
    rw [natToHexAux]
    by_cases hsmall : n < 16
    · rw [if_pos hsmall]
      rw [Nat.digits_def' (by norm_num : (1:Nat) < 16) (Nat.pos_of_ne_zero hne)]
      rw [Nat.mod_eq_of_lt hsmall, Nat.div_eq_of_lt hsmall]
      simp
    · rw [if_neg hsmall]
      have hdiv_ne : n / 16 ≠ 0 := by
        intro h
        have : n < 16 := by omega
        omega
      have hdiv_lt : n / 16 < f := by
        have h1 : n / 16 < n := Nat.div_lt_self (Nat.pos_of_ne_zero hne) (by norm_num)
        omega
      rw [ih (n / 16) _ hdiv_ne hdiv_lt]
      rw [Nat.digits_def' (by norm_num : (1:Nat) < 16) (Nat.pos_of_ne_zero hne)]
      simp

theorem natToHex_eq_digits (n : Nat) (hne : n ≠ 0) :
    natToHex n = ((Nat.digits 16 n).map Nat.digitChar).reverse := by
  unfold natToHex
  rw [natToHexAux_eq_digits (n + 1) n [] hne (by omega)]
  simp

theorem natToHex_length (n : Nat) (hne : n ≠ 0) :
    (natToHex n).length = (Nat.digits 16 n).length := by
  rw [natToHex_eq_digits n hne]; simp

theorem digits16_length_le_iff (n k : Nat) (hne : n ≠ 0) :
    (Nat.digits 16 n).length ≤ k ↔ n < 16 ^ k := by
  rw [Nat.digits_len 16 n (by norm_num) hne]
  constructor
  · intro h
    have hlog : Nat.log 16 n < k := by omega
    exact (Nat.lt_pow_iff_log_lt (by norm_num) hne).mpr hlog
  · intro h
    have hlog := (Nat.lt_pow_iff_log_lt (by norm_num) hne).mp h
    omega

/-- The sixteen lowercase hexadecimal digit characters. -/
def hexChars : List Char := "0123456789abcdef".toList

theorem digitChar_mem_hexChars {m : Nat} (h : m < 16) :
    Nat.digitChar m ∈ hexChars := by
  have : ∀ m' : Nat, m' < 16 → Nat.digitChar m' ∈ hexChars := by decide
  exact this m h

theorem natToHexAux_mem_hexChars :
    ∀ (fuel n : Nat) (acc : List Char), (∀ c ∈ acc, c ∈ hexChars) →
      ∀ c ∈ natToHexAux fuel n acc, c ∈ hexChars := by
  intro fuel
  induction fuel with
  | zero => intro n acc hacc c hc; exact hacc c hc
  | succ f ih =>
    intro n acc hacc c hc
    rw [natToHexAux] at hc
    by_cases hsmall : n < 16
    · rw [if_pos hsmall] at hc
      rcases List.mem_cons.mp hc with h | h
      · subst h; exact digitChar_mem_hexChars hsmall
      · exact hacc c h
    · rw [if_neg hsmall] at hc
      refine ih (n / 16) _ ?_ c hc
      intro d hd
      rcases List.mem_cons.mp hd with h | h
      · subst h; exact digitChar_mem_hexChars (Nat.mod_lt _ (by norm_num))
      · exact hacc d h

theorem natToHex_mem_hexChars (n : Nat) : ∀ c ∈ natToHex n, c ∈ hexChars := by
  unfold natToHex
  exact natToHexAux_mem_hexChars (n + 1) n [] (by simp)

theorem natToHex_length_pos (n : Nat) : 1 ≤ (natToHex n).length := by
  by_cases hne : n = 0
  · subst hne; decide
  · rw [natToHex_length n hne]
    have := (@Nat.digits_ne_nil_iff_ne_zero 16 n).mpr hne
    cases h : Nat.digits 16 n with
    | nil => exact absurd h this
    | cons a l => simp

/-- The hex portion of a document id: `Math.abs(hash).toString(16).slice(0, 8)`. -/
def docIdHex (phone : List Char) : List Char :=
  (natToHex (Int.natAbs (jsHash (phone.map Char.toNat)))).take 8

/-- Spec-side "last 4 characters" of a string. -/
def lastFour (s : List Char) : List Char :=
  (s.reverse.take 4).reverse

/-! ## Claim theorems -/

/-- C1: for every input string, `createDocumentId` returns the constant
prefix `spam_check_` followed by the lowercase hexadecimal rendering,
truncated to at most 8 characters, of the absolute value of the reference
hash (start from 0; for each char code, `hash = (hash*31 + charCode)` with
sign-preserving 32-bit wraparound) — the shift-and-subtract form of the code
coincides with this reference; and the same input always yields the same id. -/
theorem createDocumentId_matches_reference :
    (∀ phone : List Char,
      createDocumentId phone =
        "spam_check_".toList
          ++ (natToHex (Int.natAbs (refHash (phone.map Char.toNat)))).take 8)
    ∧ (∀ p q : List Char, p = q → createDocumentId p = createDocumentId q) := by
  constructor
  · intro phone
    unfold createDocumentId
    rw [jsHash_eq_refHash]
  · intro p q h
    rw [h]

/-- Witness for C1 at the concrete input `"+12345678901"`. -/
theorem createDocumentId_matches_reference_witness :
    ("+12345678901".toList : List Char) = "+12345678901".toList
    ∧ createDocumentId "+12345678901".toList = createDocumentId "+12345678901".toList :=
  ⟨rfl, createDocumentId_matches_reference.2 _ _ rfl⟩

/-- C10: every document id is the literal prefix `spam_check_` followed by
between 1 and 8 lowercase hexadecimal characters; the hex part is shorter
than 8 characters whenever the absolute hash value is below `16^7`; the
empty string yields `spam_check_0`; and ids do not all have one length. -/
theorem docId_shape :
    (∀ phone : List Char,
      createDocumentId phone = "spam_check_".toList ++ docIdHex phone
      ∧ 1 ≤ (docIdHex phone).length
      ∧ (docIdHex phone).length ≤ 8
      ∧ (∀ c ∈ docIdHex phone, c ∈ hexChars)
      ∧ ((Int.natAbs (jsHash (phone.map Char.toNat)) < 16 ^ 7 →
          (docIdHex phone).length < 8)))
    ∧ createDocumentId [] = "spam_check_0".toList
    ∧ (createDocumentId []).length ≠ (createDocumentId "+12345678901".toList).length := by
  refine ⟨?_, by decide, by decide⟩
  intro phone
  have hlen1 : 1 ≤ (natToHex (Int.natAbs (jsHash (phone.map Char.toNat)))).length :=
    natToHex_length_pos _
  refine ⟨rfl, ?_, ?_, ?_, ?_⟩
  · unfold docIdHex
    rw [List.length_take]
    omega
  · unfold docIdHex
    rw [List.length_take]
    omega
  · intro c hc
    unfold docIdHex at hc
    exact natToHex_mem_hexChars _ c (List.take_subset 8 _ hc)
  · intro hsmall
    unfold docIdHex
    rw [List.length_take]
    by_cases hz : Int.natAbs (jsHash (phone.map Char.toNat)) = 0
    · rw [hz]
      decide
    · have h7 : (Nat.digits 16 (Int.natAbs (jsHash (phone.map Char.toNat)))).length ≤ 7 :=
        (digits16_length_le_iff _ 7 hz).mpr hsmall
      rw [natToHex_length _ hz]
      omega

/-- Witness for C10 at the concrete input `[]` (hash 0, below `16^7`). -/
theorem docId_shape_witness :
    Int.natAbs (jsHash (([] : List Char).map Char.toNat)) < 16 ^ 7
    ∧ (docIdHex []).length < 8 :=
  ⟨by decide, (docId_shape.1 []).2.2.2.2 (by decide)⟩

/-- C7: `isE164` returns true iff the string starts with `+` and the
remainder is 10 to 15 ASCII digits inclusive; it accepts `+12345678901`
and rejects `12345678901` and `+123`. -/
theorem isE164_spec :
    (∀ s : List Char,
      isE164 s = true ↔
        ∃ rest : List Char, s = '+' :: rest ∧ (∀ c ∈ rest, c.isDigit = true)
          ∧ 10 ≤ rest.length ∧ rest.length ≤ 15)
    ∧ isE164 "+12345678901".toList = true
    ∧ isE164 "12345678901".toList = false
    ∧ isE164 "+123".toList = false := by
  refine ⟨?_, by decide, by decide, by decide⟩
  intro s
  cases s with
  | nil => simp [isE164, startsPlus, e164Regex]
  | cons c rest =>
    by_cases hc : c = '+'
    · subst hc
      simp only [isE164, startsPlus, e164Regex, Bool.and_eq_true, beq_self_eq_true,
        true_and, List.all_eq_true, decide_eq_true_eq]
      constructor
      · rintro ⟨⟨hdig, h10⟩, h15⟩
        exact ⟨rest, rfl, hdig, h10, h15⟩
      · rintro ⟨rest', heq, hdig, h10, h15⟩
        cases heq
        exact ⟨⟨hdig, h10⟩, h15⟩
    · constructor
      · intro h
        simp only [isE164, startsPlus, Bool.and_eq_true, beq_iff_eq] at h
        exact absurd h.1 hc
      · rintro ⟨rest', heq, -, -, -⟩
        cases heq
        exact absurd rfl hc

/-- C9: `maskPhoneNumber` returns a run of mask characters of the input's
length when that length is below 4, and otherwise `(length-4)` mask
characters followed by the last 4 characters verbatim; no error cases. -/
theorem maskPhoneNumber_spec :
    (∀ phone : List Char,
      (phone.length < 4 → maskPhoneNumber phone = List.replicate phone.length '*')
      ∧ (4 ≤ phone.length →
          maskPhoneNumber phone =
            List.replicate (phone.length - 4) '*' ++ lastFour phone))
    ∧ maskPhoneNumber "+12345678901".toList = List.replicate 8 '*' ++ "8901".toList := by
  refine ⟨?_, by decide⟩
  intro phone
  constructor
  · intro h
    unfold maskPhoneNumber
    rw [if_pos h]
  · intro h
    unfold maskPhoneNumber
    rw [if_neg (by omega)]
    unfold lastFour
    rw [← List.rtake_eq_reverse_take_reverse]
    rfl

/-- Witness for C9 at the concrete input `"+12345678901"` (length 12). -/
theorem maskPhoneNumber_spec_witness :
    4 ≤ ("+12345678901".toList : List Char).length
    ∧ maskPhoneNumber "+12345678901".toList
        = List.replicate (("+12345678901".toList : List Char).length - 4) '*'
            ++ lastFour "+12345678901".toList :=
  ⟨by decide, (maskPhoneNumber_spec.1 _).2 (by decide)⟩

/-- C5: when `isValidExternalFormat` rejects the input, `checkSpamScore`
fails immediately with the invalid-format error, performs no outbound call,
and its outcome is independent of the upstream; when the precondition holds
the upstream is contacted exactly once. -/
theorem checkSpamScore_network_calls :
    ∀ (phone : List Char) (resp : HttpResponse) (checkedAt : List Char),
      (isE164 phone = false →
        (checkSpamScore phone resp checkedAt).1 = .error (.invalidFormat phone)
        ∧ (checkSpamScore phone resp checkedAt).2 = 0
        ∧ ∀ resp' : HttpResponse,
            (checkSpamScore phone resp checkedAt).1
              = (checkSpamScore phone resp' checkedAt).1)
      ∧ (isE164 phone = true → (checkSpamScore phone resp checkedAt).2 = 1) := by
  intro phone resp checkedAt
  constructor
  · intro h
    refine ⟨?_, ?_, ?_⟩
    · simp [checkSpamScore, h]
    · simp [checkSpamScore, h]
    · intro resp'
      simp [checkSpamScore, h]
  · intro h
    unfold checkSpamScore
    rw [h]
    simp only [Bool.true_eq_false, if_false]
    split
    · rfl
    · split
      · rfl
      · split
        · rfl
        · split
          · rfl
          · rfl

/-- Witness for C5 at the invalid-format input `"+12"`. -/
theorem checkSpamScore_network_calls_witness :
    isE164 "+12".toList = false
    ∧ (checkSpamScore "+12".toList ⟨200, ⟨none, none, none, none⟩⟩ []).1
        = .error (.invalidFormat "+12".toList) :=
  ⟨by decide, ((checkSpamScore_network_calls _ _ _).1 (by decide)).1⟩

/-- C6: on a valid-format number the upstream status is mapped to a distinct
failure kind — 404 to not-found, 401 to authentication failure, 429 to
rate-limited, any other non-2xx to a generic upstream error carrying the
status — and 2xx responses do not fail on status. -/
theorem checkSpamScore_status_mapping :
    ∀ (phone : List Char) (resp : HttpResponse) (checkedAt : List Char),
      isE164 phone = true →
      (resp.status = 404 →
        (checkSpamScore phone resp checkedAt).1 = .error (.notFound phone))
      ∧ (resp.status = 401 →
        (checkSpamScore phone resp checkedAt).1 = .error .authFailed)
      ∧ (resp.status = 429 →
        (checkSpamScore phone resp checkedAt).1 = .error .rateLimited)
      ∧ (resp.status ≠ 404 → resp.status ≠ 401 → resp.status ≠ 429 →
         respOk resp = false →
        (checkSpamScore phone resp checkedAt).1 = .error (.upstreamError resp.status))
      ∧ (respOk resp = true →
        ∃ r : SpamCheckResult, (checkSpamScore phone resp checkedAt).1 = .ok r) := by
  intro phone resp checkedAt hvalid
  refine ⟨?_, ?_, ?_, ?_, ?_⟩
  · intro h404
    simp [checkSpamScore, hvalid, h404]
  · intro h401
    have : resp.status ≠ 404 := by omega
    simp [checkSpamScore, hvalid, h401, this]
  · intro h429
    have h1 : resp.status ≠ 404 := by omega
    have h2 : resp.status ≠ 401 := by omega
    simp [checkSpamScore, hvalid, h429, h1, h2]
  · intro h1 h2 h3 hko
    simp [checkSpamScore, hvalid, h1, h2, h3, hko]
  · intro hok
    have hrange : 200 ≤ resp.status ∧ resp.status ≤ 299 := by
      have := of_decide_eq_true (Bool.and_eq_true .. ▸ hok).1
      have := of_decide_eq_true (Bool.and_eq_true .. ▸ hok).2
      simp only [respOk, Bool.and_eq_true, decide_eq_true_eq] at hok
      exact hok
    have h1 : resp.status ≠ 404 := by omega
    have h2 : resp.status ≠ 401 := by omega
    have h3 : resp.status ≠ 429 := by omega
    unfold checkSpamScore
    rw [hvalid]
    simp only [Bool.true_eq_false, if_false]
    rw [if_neg h1, if_neg h2, if_neg h3, if_neg (by simp [hok])]
    exact ⟨_, rfl⟩

/-- Witness for C6: valid number, upstream 404. -/
theorem checkSpamScore_status_mapping_witness :
    isE164 "+12345678901".toList = true
    ∧ (checkSpamScore "+12345678901".toList ⟨404, ⟨none, none, none, none⟩⟩ []).1
        = .error (.notFound "+12345678901".toList) :=
  ⟨by decide,
    (checkSpamScore_status_mapping "+12345678901".toList
      ⟨404, ⟨none, none, none, none⟩⟩ [] (by decide)).1 rfl⟩

/-- C2: for every `tools/call` of the `search` tool whose (trimmed) query is
phone-number-like, if the lookup client fails the handler still returns a
success envelope whose payload is a single synthetic item with id
`error_<timestamp>` and text containing the failure message; no
protocol-level error is produced for a lookup failure. -/
theorem search_lookup_failure_success_envelope :
    ∀ (rid : RpcId) (raw : List Char) (now : Nat) (resp : HttpResponse)
      (checkedAt : List Char) (e : LookupError),
      startsPlus (jsTrim raw) = true →
      5 < (jsTrim raw).length →
      (checkSpamScore (jsTrim raw) resp checkedAt).1 = .error e →
      handleToolCall rid "search".toList ⟨some raw, none⟩ now resp checkedAt
        = .ok rid (.results [errorItem now (jsTrim raw) e])
      ∧ (handleToolCall rid "search".toList
          ⟨some raw, none⟩ now resp checkedAt).isSuccess = true
      ∧ (errorItem now (jsTrim raw) e).id = "error_".toList ++ (toString now).toList
      ∧ (errorItem now (jsTrim raw) e).text
          = "Could not check spam status: ".toList ++ e.message
      ∧ List.IsInfix e.message (errorItem now (jsTrim raw) e).text := by
  intro rid raw now resp checkedAt e hplus hlen herr
  have hne : jsTrim raw ≠ [] := by
    intro h
    rw [h] at hplus
    exact absurd hplus (by decide)
  have hmain : handleToolCall rid "search".toList ⟨some raw, none⟩ now resp checkedAt
      = .ok rid (.results [errorItem now (jsTrim raw) e]) := by
    unfold handleToolCall
    rw [if_pos rfl]
    simp only
    rw [if_neg hne, if_pos (by simp [hplus, hlen]), herr]
  refine ⟨hmain, by rw [hmain]; rfl, rfl, rfl, ?_⟩
  exact ⟨"Could not check spam status: ".toList, [], by simp [errorItem]⟩

/-- Witness for C2: query `"+123456"` (phone-like but invalid format). -/
theorem search_lookup_failure_success_envelope_witness :
    startsPlus (jsTrim "+123456".toList) = true
    ∧ 5 < (jsTrim "+123456".toList).length
    ∧ (checkSpamScore (jsTrim "+123456".toList) ⟨200, ⟨none, none, none, none⟩⟩ []).1
        = .error (.invalidFormat "+123456".toList)
    ∧ handleToolCall (.num 1) "search".toList ⟨some "+123456".toList, none⟩ 7
        ⟨200, ⟨none, none, none, none⟩⟩ []
        = .ok (.num 1)
            (.results [errorItem 7 (jsTrim "+123456".toList) (.invalidFormat "+123456".toList)]) :=
  ⟨by decide, by decide, by decide,
    (search_lookup_failure_success_envelope (.num 1) "+123456".toList 7
      ⟨200, ⟨none, none, none, none⟩⟩ [] (.invalidFormat "+123456".toList)
      (by decide) (by decide) (by decide)).1⟩

/-- C4 (failing input): on the phone-like but invalid query `"+123456"` the
synthetic error item's text carries the raw, unmasked phone number — the
thrown message embeds `phoneNumber` verbatim — even though the title of the
very same item uses the masked form.  This exhibits the masking-invariant
violation. -/
theorem search_error_text_leaks_unmasked_number :
    handleToolCall (.num 1) "search".toList ⟨some "+123456".toList, none⟩ 7
        ⟨200, ⟨none, none, none, none⟩⟩ []
      = .ok (.num 1) (.results
          [{ id := "error_7".toList
             title := "Error checking ***3456".toList
             text := "Could not check spam status: Invalid phone number format: +123456".toList
             url := "https://spam-checker.example.com/error".toList }])
    ∧ List.IsInfix "+123456".toList
        "Could not check spam status: Invalid phone number format: +123456".toList
    ∧ maskPhoneNumber "+123456".toList ≠ "+123456".toList := by
  refine ⟨by decide, ?_, by decide⟩
  exact ⟨"Could not check spam status: Invalid phone number format: ".toList, [], by decide⟩

/-- C8 (counterexample): an `id` argument that is present but equal to the
empty string is rejected with the `-32602` protocol error, not answered with
the success envelope the claim promises for every present id. -/
theorem fetch_empty_id_rejected :
    handleToolCall (.num 1) "fetch".toList ⟨none, some []⟩ 0
        ⟨200, ⟨none, none, none, none⟩⟩ []
      = .err (.num 1) (-32602) "Document ID is required".toList
    ∧ (handleToolCall (.num 1) "fetch".toList ⟨none, some []⟩ 0
        ⟨200, ⟨none, none, none, none⟩⟩ []).isSuccess = false := by
  exact ⟨by decide, by decide⟩

/-- C8 (amended): for the `fetch` tool, a missing *or empty* id yields the
`-32602` protocol error; every nonempty id yields a success envelope with
the same static explanatory document, independent of the id's value (no
stored search result is ever retrieved). -/
theorem fetch_handler_behaviour :
    ∀ (rid : RpcId) (args : ToolArgs) (now : Nat) (resp : HttpResponse)
      (checkedAt : List Char),
      ((args.id = none ∨ args.id = some []) →
        handleToolCall rid "fetch".toList args now resp checkedAt
          = .err rid (-32602) "Document ID is required".toList)
      ∧ (∀ s : List Char, args.id = some s → s ≠ [] →
          handleToolCall rid "fetch".toList args now resp checkedAt
            = .ok rid (.message
                "Document retrieval requires phone number re-check. Use search instead.".toList)) := by
  intro rid args now resp checkedAt
  constructor
  · intro h
    rcases h with h | h <;>
      · unfold handleToolCall
        rw [if_neg (by decide), if_pos rfl, h]
        try simp
  · intro s hs hne
    unfold handleToolCall
    rw [if_neg (by decide), if_pos rfl, hs]
    simp [hne]

/-- Witness for C8's amended theorem: nonempty id `"abc"`. -/
theorem fetch_handler_behaviour_witness :
    (some "abc".toList = some "abc".toList)
    ∧ "abc".toList ≠ ([] : List Char)
    ∧ handleToolCall (.num 2) "fetch".toList ⟨none, some "abc".toList⟩ 0
        ⟨200, ⟨none, none, none, none⟩⟩ []
        = .ok (.num 2) (.message
            "Document retrieval requires phone number re-check. Use search instead.".toList) :=
  ⟨rfl, by decide,
    (fetch_handler_behaviour (.num 2) ⟨none, some "abc".toList⟩ 0
      ⟨200, ⟨none, none, none, none⟩⟩ []).2 "abc".toList rfl (by decide)⟩

/-- C3 (counterexample): a malformed JSON body on `/mcp` is answered by the
catch-all branch with error code `-32603` and HTTP status 500 — not the
claimed `-32700` parse error with a 200 status (the id `null` part does
hold). -/
theorem mcp_parse_failure_not_32700 :
    mcpPost (.parseFailure "Unexpected token".toList) 0
        ⟨200, ⟨none, none, none, none⟩⟩ []
      = ⟨500, .err .null (-32603) "Internal error: Unexpected token".toList⟩
    ∧ (mcpPost (.parseFailure "Unexpected token".toList) 0
        ⟨200, ⟨none, none, none, none⟩⟩ []).status ≠ 200 := by
  exact ⟨by decide, by decide⟩

/-- C3 (amended): for every POST to `/mcp` whose body is not valid JSON, the
returned envelope is the internal-error envelope `-32603` with message
`Internal error: <parse message>` and id `null`, delivered with HTTP status
500; the `-32700` parse-error envelope is not produced on this transport. -/
theorem mcp_parse_failure_internal_error :
    ∀ (errMsg : List Char) (now : Nat) (resp : HttpResponse) (checkedAt : List Char),
      mcpPost (.parseFailure errMsg) now resp checkedAt
        = ⟨500, .err .null (-32603) ("Internal error: ".toList ++ errMsg)⟩ := by
  intro errMsg now resp checkedAt
  rfl

end SpamChecker
